import Mathlib

set_option maxHeartbeats 1000000

/-! Shallow embedding of the time-series forecasting engine of
`app/routers/forecasting.py` (`generate_forecast` and
`generate_shap_explanations`), together with proofs about it.

Python floats are modelled as exact rationals, and Python `round(x, 2)` as
exact decimal rounding half to even.  The scikit-learn regressors are opaque
to this development: an `MLOracle` supplies the outcome of the training block
(the `r2_score` of the in-sample predictions, or `none` when `model.fit` /
`r2_score` raises) and the outcome of each future-step `model.predict` call
(`none` when it raises), exactly at the points where `generate_forecast`
consumes those values.  The display-only `insights` strings of the result are
not modelled; every numeric field is. -/

/-- One aggregated observation `(year, total_amount)` as produced by the
loader query (`SELECT ar.year, SUM(ar.amount) ... GROUP BY ar.year ORDER BY
year`, lines 136-171). -/
structure Obs where
  year : Int
  amount : ℚ
deriving DecidableEq

/-- `PredictionPoint` (lines 26-30). -/
structure PredictionPoint where
  year : Int
  predicted : ℚ
  lower : ℚ
  upper : ℚ
deriving DecidableEq

/-- The accuracy map built at lines 330-354 (`prophet` / `xgboost` /
`hybrid` / `confidence` / `method`). -/
structure AccuracyMetrics where
  prophet : ℚ
  xgboost : ℚ
  hybrid : ℚ
  confidence : ℚ
  method : String
deriving DecidableEq

/-- `ForecastResult` (lines 32-38).  The `insights` list is display-only
prose and is not modelled. -/
structure ForecastResult where
  country : String
  sector : Option String
  predictions : List PredictionPoint
  accuracy : AccuracyMetrics
  featureImportance : List (String × ℚ)
deriving DecidableEq

/-- `ForecastRequest` (lines 20-24). -/
structure ForecastRequest where
  country : String
  sector : Option String
  years : Nat
  model : String
deriving DecidableEq

/-- An `HTTPException` raised by the endpoint. -/
structure HttpError where
  status : Nat
  detail : String
deriving DecidableEq

/-- The outcomes of the opaque scikit-learn regressor: `fit` is the in-sample
`r2_score` obtained after a successful `model.fit` (lines 215-219), or `none`
when that block raises (line 222); `predict i` is the raw output of
`model.predict` for future step `i` (line 247), or `none` when it raises
(line 265). -/
structure MLOracle where
  fit : Option ℚ
  predict : Nat → Option ℚ

/-- Round-half-to-even on rationals, the rounding of Python `round`. -/
def roundHalfEven (q : ℚ) : ℤ :=
  if q - ⌊q⌋ = 1/2 then (if 2 ∣ ⌊q⌋ then ⌊q⌋ else ⌊q⌋ + 1) else round q

/-- Python `round(x, 2)` on exact rationals. -/
def pyRound2 (q : ℚ) : ℚ := (roundHalfEven (q * 100) : ℚ) / 100

/-- `np.mean` of a list (only ever applied to nonempty lists here). -/
def meanQ (l : List ℚ) : ℚ := l.sum / l.length

/-- `np.diff`: successive first differences. -/
def diffs (l : List ℚ) : List ℚ := List.zipWith (fun a b => b - a) l l.tail

/-- Python `l[-n:]`. -/
def takeLast (n : Nat) (l : List ℚ) : List ℚ := l.drop (l.length - n)

/-- Python `max` over a list of integers (callers guarantee nonemptiness). -/
def listMaxI : List Int → Int
  | [] => 0
  | x :: xs => xs.foldl max x

/-- `amounts = [float(row.total_aid or 0) for row in historical_data]`
(line 171). -/
def amountsOf (series : List Obs) : List ℚ := series.map Obs.amount

/-- `base_amount = amounts[-1]` (line 229). -/
def lastAmount (series : List Obs) : ℚ := (amountsOf series).getLast?.getD 0

/-- `amounts[0]`. -/
def firstAmount (series : List Obs) : ℚ := (amountsOf series).headD 0

/-- `avg_annual_change = (amounts[-1] - amounts[0]) / (len(amounts) - 1) if
len(amounts) > 1 else 0` (line 233). -/
def avgAnnualChange (series : List Obs) : ℚ :=
  if 1 < series.length then
    (lastAmount series - firstAmount series) / ((series.length : ℚ) - 1)
  else 0

/-- `recent_trend = np.mean(np.diff(amounts[-3:])) if len(amounts) >= 3 else
avg_annual_change` (line 252). -/
def recentTrendOf (series : List Obs) : ℚ :=
  if 3 ≤ series.length then meanQ (diffs (takeLast 3 (amountsOf series)))
  else avgAnnualChange series

/-- `last_year = max(years)` (line 228). -/
def lastYearOf (series : List Obs) : Int := listMaxI (series.map Obs.year)

/-- The regressor family selected at lines 195-202. -/
inductive RegressorKind
  | randomForest
  | gradientBoosting
deriving DecidableEq

/-- Hyperparameters of the selected regressor (`random_state=42` always; it
plays no numeric role here). -/
structure RegressorConfig where
  kind : RegressorKind
  nEstimators : Nat
  learningRate : Option ℚ
  maxDepth : Option Nat
deriving DecidableEq

/-- Model selection, lines 193-203: `if request.model == "prophet" or
len(df) < 5` picks the RandomForest branch with `expected_accuracy = 86.5`;
`elif request.model == "xgboost"` the 100-stage GradientBoosting branch with
89.2; else the 150-stage GradientBoosting branch with 91.8.  `len(df)` equals
the number of observations (the bfill/ffill at line 191 drops no row). -/
def chooseModel (model : String) (nObs : Nat) : RegressorConfig × ℚ :=
  if model = "prophet" ∨ nObs < 5 then
    (⟨RegressorKind.randomForest, 100, none, none⟩, 86.5)
  else if model = "xgboost" then
    (⟨RegressorKind.gradientBoosting, 100, some 0.1, none⟩, 89.2)
  else
    (⟨RegressorKind.gradientBoosting, 150, some 0.08, some 4⟩, 91.8)

/-- Lines 194 and 207-225: `model_accuracy = 80.0` by default; `use_ml =
len(df) >= 3`; when `use_ml`, a successful fit yields `model_accuracy =
max(75.0, min(expected_accuracy, r2_accuracy * 100))` (line 220), and an
exception in the training block yields `use_ml = False` and
`model_accuracy = 75.0` (lines 224-225). -/
def trainOutcome (nObs : Nat) (expectedAccuracy : ℚ) (oracle : MLOracle) :
    Bool × ℚ :=
  if 3 ≤ nObs then
    match oracle.fit with
    | some r2 => (true, max 75 (min expectedAccuracy (r2 * 100)))
    | none => (false, 75)
  else (false, 80)

/-- The `expected_accuracy` chosen for a request. -/
def expectedAccuracyOf (req : ForecastRequest) (series : List Obs) : ℚ :=
  (chooseModel req.model series.length).2

/-- The final value of the `use_ml` flag. -/
def useMlOf (req : ForecastRequest) (series : List Obs) (oracle : MLOracle) :
    Bool :=
  (trainOutcome series.length (expectedAccuracyOf req series) oracle).1

/-- The final value of `model_accuracy`. -/
def modelAccuracyOf (req : ForecastRequest) (series : List Obs)
    (oracle : MLOracle) : ℚ :=
  (trainOutcome series.length (expectedAccuracyOf req series) oracle).2

/-- `confidence_factor = (100 - model_accuracy) / 100 * 0.25 + 0.10`
(line 262). -/
def confidenceFactor (acc : ℚ) : ℚ := (100 - acc) / 100 * 0.25 + 0.1

/-- `growth_factor = 1 + (avg_annual_change / base_amount * 0.5) if
base_amount > 0 else 1.05` (line 271). -/
def trendGrowthFactor (series : List Obs) : ℚ :=
  if 0 < lastAmount series then
    1 + avgAnnualChange series / lastAmount series * 0.5
  else 1.05

/-- Lines 250-259: the flat-prediction correction for step 1 (override the
raw prediction when it is within 1.0 of the last observed amount) and the
multi-step drift adjustment `avg_annual_change * 0.5 * i` for steps `i > 1`. -/
def mlRawAdjusted (base avg rt : ℚ) (i : Nat) (p0 : ℚ) : ℚ :=
  let p1 := if i = 1 ∧ |p0 - base| < 1 then base + rt * 0.75 else p0
  if 1 < i then p1 + avg * 0.5 * (i : ℚ) else p1

/-- One iteration of the loop at lines 235-273, producing the pre-clamp
`(predicted, variability)` pair for future step `i`:
* trained-model path (lines 238-263) when `use_ml`, consuming the raw
  `model.predict` output;
* per-step exception fallback (lines 265-268) when `model.predict` raises;
* trend fallback (lines 269-273) when no model is available. -/
def stepPredVar (useMl : Bool) (acc base avg rt gf : ℚ) (oracle : MLOracle)
    (i : Nat) : ℚ × ℚ :=
  if useMl then
    match oracle.predict i with
    | some p0 =>
      let p := mlRawAdjusted base avg rt i p0
      (p, |p| * confidenceFactor acc)
    | none =>
      let p := base + avg * (i : ℚ)
      (p, |p| * 0.2)
  else
    let p := base * gf ^ i
    (p, |p| * 0.2)

/-- The pre-clamp `(predicted, variability)` pair of future step `i` for a
given request, series and oracle. -/
def stepRaw (req : ForecastRequest) (series : List Obs) (oracle : MLOracle)
    (i : Nat) : ℚ × ℚ :=
  stepPredVar (useMlOf req series oracle) (modelAccuracyOf req series oracle)
    (lastAmount series) (avgAnnualChange series) (recentTrendOf series)
    (trendGrowthFactor series) oracle i

/-- Lines 276-285: `lower = max(0, predicted - variability)`, `upper =
predicted + variability`, `predicted = max(0, predicted)`, each rounded to 2
decimals.  Note that `upper` is computed from the pre-clamp `predicted`. -/
def mkPoint (year : Int) (p v : ℚ) : PredictionPoint :=
  { year := year
    predicted := pyRound2 (max 0 p)
    lower := pyRound2 (max 0 (p - v))
    upper := pyRound2 (p + v) }

/-- The `PredictionPoint` appended for future step `i`
(`forecast_year = int(last_year) + i`, line 236). -/
def stepPoint (req : ForecastRequest) (series : List Obs) (oracle : MLOracle)
    (i : Nat) : PredictionPoint :=
  mkPoint (lastYearOf series + (i : Int)) (stepRaw req series oracle i).1
    (stepRaw req series oracle i).2

/-- The full predictions list (`for i in range(1, request.years + 1)`,
line 235). -/
def predictionsOf (req : ForecastRequest) (series : List Obs)
    (oracle : MLOracle) : List PredictionPoint :=
  (List.range req.years).map (fun k => stepPoint req series oracle (k + 1))

/-- The accuracy map of lines 330-354. -/
def accuracyMetricsFor (model : String) (acc : ℚ) (useMl : Bool) :
    AccuracyMetrics :=
  if model = "prophet" then
    { prophet := acc
      xgboost := if useMl then 89.2 else 84.5
      hybrid := if useMl then 91.8 else 88.1
      confidence := acc
      method := if useMl then "Random Forest (Prophet Mode)" else "Trend Analysis" }
  else if model = "xgboost" then
    { prophet := if useMl then 86.5 else 82.1
      xgboost := acc
      hybrid := if useMl then 91.8 else 88.1
      confidence := acc
      method := if useMl then "Gradient Boosting (XGBoost Mode)" else "Trend Analysis" }
  else
    { prophet := if useMl then 86.5 else 82.1
      xgboost := if useMl then 89.2 else 84.5
      hybrid := acc
      confidence := acc
      method := if useMl then "Advanced Gradient Boosting (Hybrid Mode)" else "Trend Analysis" }

/-- The fixed feature-importance list of lines 322-328. -/
def featureImportanceList : List (String × ℚ) :=
  [("Historical Trend", 0.35), ("GDP Growth", 0.25),
   ("Political Stability", 0.2), ("Natural Disasters", 0.12),
   ("Regional Conflicts", 0.08)]

/-- The `ForecastResult` assembled at lines 356-363. -/
def forecastBundle (req : ForecastRequest) (series : List Obs)
    (oracle : MLOracle) : ForecastResult :=
  { country := req.country
    sector := req.sector
    predictions := predictionsOf req series oracle
    accuracy := accuracyMetricsFor req.model
      (modelAccuracyOf req series oracle) (useMlOf req series oracle)
    featureImportance := featureImportanceList }

/-- The `/forecast` endpoint, lines 129-369, applied to the loaded series:
`if not historical_data: raise HTTPException(404, ...)` (line 166-167),
`if len(amounts) < 2: raise HTTPException(400, ...)` (line 173-174), and
otherwise the `ForecastResult` assembled at lines 356-363. -/
def generate_forecast (req : ForecastRequest) (series : List Obs)
    (oracle : MLOracle) : Except HttpError ForecastResult :=
  if series.length = 0 then
    Except.error ⟨404, "No historical data found for " ++ req.country⟩
  else if series.length < 2 then
    Except.error ⟨400, "Insufficient historical data for forecasting"⟩
  else
    Except.ok (forecastBundle req series oracle)

/-- `SHAPRequest` (lines 371-375). -/
structure SHAPRequest where
  country : String
  sector : Option String
  model : String
  years : Nat
deriving DecidableEq

/-- `SHAPExplanation` (lines 377-381). -/
structure SHAPExplanation where
  feature : String
  impact : ℚ
  description : String
  category : String
deriving DecidableEq

/-- `SHAPResult` (lines 383-388). -/
structure SHAPResult where
  explanations : List SHAPExplanation
  model_prediction : ℚ
  base_value : ℚ
  country : String
  sector : Option String
deriving DecidableEq

/-- The short-term explanation list (lines 475-512, `request.years <= 3`). -/
def shortTermExplanations : List SHAPExplanation :=
  [⟨"Historical Trend", 1.31947,
    "Positive long-term aid flow pattern indicates sustained donor commitment",
    "temporal"⟩,
   ⟨"Aid Volatility", -0.08732,
    "Low variability in aid flows affects prediction confidence",
    "stability"⟩,
   ⟨"Recent Growth", 0.01368,
    "Stable aid flows in recent years suggest predictable patterns",
    "momentum"⟩,
   ⟨"Development Stage", 0.2,
    "High development needs drive continued aid requirements",
    "structural"⟩,
   ⟨"Economic Cycle", 0.14266,
    "Global economic conditions favor aid allocation to this region",
    "external"⟩,
   ⟨"Political Stability", 0.06507,
    "Stable political environment affects aid predictability and effectiveness",
    "governance"⟩]

/-- The medium-term explanation list (lines 513-552, `request.years <= 5`). -/
def mediumTermExplanations : List SHAPExplanation :=
  [⟨"Development Stage", 1.45,
    "Medium-term development needs become primary driver of aid allocation",
    "structural"⟩,
   ⟨"Historical Trend", 0.95,
    "Past aid patterns influence medium-term projections with moderate weight",
    "temporal"⟩,
   ⟨"Economic Cycle", 0.28,
    "Global economic cycles impact medium-term aid commitment sustainability",
    "external"⟩,
   ⟨"Political Stability", 0.18,
    "Government stability affects medium-term aid program effectiveness",
    "governance"⟩,
   ⟨"Regional Context", 0.12,
    "Regional development patterns influence aid allocation strategy",
    "regional"⟩,
   ⟨"Aid Volatility", -0.03,
    "Funding variability has reduced impact over medium timeframes",
    "stability"⟩]

/-- The long-term explanation list (lines 553-592, `request.years > 5`). -/
def longTermExplanations : List SHAPExplanation :=
  [⟨"Development Stage", 1.82,
    "Long-term development trajectory becomes dominant factor in aid forecasting",
    "structural"⟩,
   ⟨"Climate Impact", 0.67,
    "Climate change effects drive long-term aid requirements for adaptation",
    "environmental"⟩,
   ⟨"Economic Transformation", 0.45,
    "Economic development patterns shape long-term aid needs and graduation",
    "economic"⟩,
   ⟨"Demographic Trends", 0.32,
    "Population growth and urbanization affect long-term development aid",
    "demographic"⟩,
   ⟨"Historical Trend", 0.15,
    "Past patterns have minimal influence on long-term structural changes",
    "temporal"⟩,
   ⟨"Global Governance", 0.08,
    "International policy frameworks shape long-term aid architecture",
    "governance"⟩]

/-- The horizon bucketing of lines 473, 513 and 553. -/
def explanationsForHorizon (years : Nat) : List SHAPExplanation :=
  if years ≤ 3 then shortTermExplanations
  else if years ≤ 5 then mediumTermExplanations
  else longTermExplanations

/-- The `ForecastRequest` the SHAP endpoint builds at lines 437-442. -/
def shapForecastRequest (req : SHAPRequest) : ForecastRequest :=
  { country := req.country, sector := req.sector, years := req.years,
    model := req.model }

/-- The `/shap-explanations` endpoint, lines 390-603, on the success path of
its own aggregation query (so `historical_data` is the same `(year, total)`
series the forecast endpoint loads).  It calls `generate_forecast`
(line 445); on success, `model_prediction` is the final predicted value
(line 448, default 25000 for an empty predictions list) and `base_value` the
mean of the historical amounts (lines 451-452); when the forecast call
raises, the fallback of lines 459-470 applies. -/
def generate_shap_explanations (req : SHAPRequest) (series : List Obs)
    (oracle : MLOracle) : Except HttpError SHAPResult :=
  match generate_forecast (shapForecastRequest req) series oracle with
  | Except.ok fr =>
    let finalPrediction :=
      match fr.predictions.getLast? with
      | some pt => pt.predicted
      | none => 25000
    let amounts := if series.isEmpty then [25000] else amountsOf series
    let baseValue := if amounts.isEmpty then 23330 else meanQ amounts
    Except.ok
      { explanations := explanationsForHorizon req.years
        model_prediction := finalPrediction
        base_value := baseValue
        country := req.country
        sector := req.sector }
  | Except.error _ =>
    if 3 ≤ series.length then
      let amounts := amountsOf series
      let recent := (amounts.getLast?.getD 0 - (takeLast 3 amounts).headD 0) / 2
      Except.ok
        { explanations := explanationsForHorizon req.years
          model_prediction := amounts.getLast?.getD 0 + recent
          base_value := meanQ amounts
          country := req.country
          sector := req.sector }
    else
      Except.error ⟨404, "No forecast or historical data found for " ++ req.country⟩

/-- A throwaway prediction point used as the default of `List.headD` /
`Option.getD` in closed statements about concrete runs. -/
def junkPoint : PredictionPoint := ⟨0, 0, 0, 0⟩

/-- Throwaway metrics for `okD`. -/
def emptyMetrics : AccuracyMetrics := ⟨0, 0, 0, 0, ""⟩

/-- Extract the `ForecastResult` of a run known to succeed (junk otherwise),
so that closed statements can name concrete outputs. -/
def okD (e : Except HttpError ForecastResult) : ForecastResult :=
  match e with
  | Except.ok fr => fr
  | Except.error _ => ⟨"", none, [], emptyMetrics, []⟩

/-- The per-identifier regressor configuration as the spec words state it
(claim C4): "prophet" an ensemble-of-trees averaging model with 100 trees and
ceiling 86.5, "xgboost" a boosted-trees regressor with 100 stages and
learning rate 0.1 and ceiling 89.2, "hybrid" (default) a boosted-trees
regressor with 150 stages, depth 4, learning rate 0.08 and ceiling 91.8 —
depending on the identifier alone.  For comparison with `chooseModel`. -/
def specRegressorFor (model : String) : RegressorConfig × ℚ :=
  if model = "prophet" then
    (⟨RegressorKind.randomForest, 100, none, none⟩, 86.5)
  else if model = "xgboost" then
    (⟨RegressorKind.gradientBoosting, 100, some 0.1, none⟩, 89.2)
  else
    (⟨RegressorKind.gradientBoosting, 150, some 0.08, some 4⟩, 91.8)

/-- The expected-ceiling table keyed by the requested identifier alone, as
the spec words state it (claims C4/C5). -/
def specCeilingFor (model : String) : ℚ :=
  if model = "prophet" then 86.5
  else if model = "xgboost" then 89.2
  else 91.8

/-- `clamp(r2 * 100, 75.0, expected_ceiling_for_the_requested_model)` as the
spec words state it (claim C5).  For comparison with `modelAccuracyOf`. -/
def specClampAccuracy (model : String) (r2 : ℚ) : ℚ :=
  max 75 (min (specCeilingFor model) (r2 * 100))

/-- "The mean of the last up-to-3 first differences of the observed amounts"
as the spec words state it (claim C6): the last three entries of the
difference list.  For comparison with `recentTrendOf`, which averages the
differences of the last three amounts (hence at most two differences). -/
def specLast3DiffMean (series : List Obs) : ℚ :=
  meanQ (takeLast 3 (diffs (amountsOf series)))

/-! Concrete fixtures used by closed counterexample and witness statements. -/

/-- A request for one future year of the `hybrid` model. -/
def reqOneYear : ForecastRequest := ⟨"X", none, 1, "hybrid"⟩

/-- A steeply declining two-point series. -/
def serDecline : List Obs := [⟨2020, 100⟩, ⟨2021, 10⟩]

/-- An oracle for runs where the regressor is never consulted (or always
raises). -/
def oracleNone : MLOracle := ⟨none, fun _ => none⟩

/-- The single point of the run of `reqOneYear` on `serDecline`. -/
def ptDecline : PredictionPoint :=
  (okD (generate_forecast reqOneYear serDecline oracleNone)).predictions.headD junkPoint

/-- A three-point series (one usable training row after the two lag rows). -/
def serThree : List Obs := [⟨2020, 100⟩, ⟨2021, 120⟩, ⟨2022, 150⟩]

/-- An oracle whose fit succeeds with in-sample r2 0.9 and whose raw
predictions are all 200. -/
def oracleR2Nine : MLOracle := ⟨some (9/10), fun _ => some 200⟩

/-- A four-point series. -/
def serFour : List Obs := [⟨2020, 100⟩, ⟨2021, 110⟩, ⟨2022, 120⟩, ⟨2023, 130⟩]

/-- An oracle whose fit succeeds with perfect in-sample r2 1.0 and whose raw
predictions are all 200. -/
def oracleFitOne : MLOracle := ⟨some 1, fun _ => some 200⟩

/-- A two-year request for the `hybrid` model. -/
def reqTwoYears : ForecastRequest := ⟨"India", none, 2, "hybrid"⟩

/-- A five-point series (large enough to select the per-identifier
regressor). -/
def serFive : List Obs :=
  [⟨2019, 100⟩, ⟨2020, 110⟩, ⟨2021, 120⟩, ⟨2022, 130⟩, ⟨2023, 140⟩]

/-- A geometric four-point series whose three first differences 1, 2, 4 have
a different mean than the differences 2, 4 of its last three amounts. -/
def serGeom : List Obs := [⟨2020, 1⟩, ⟨2021, 2⟩, ⟨2022, 4⟩, ⟨2023, 8⟩]

/-- An oracle predicting exactly the last observed amount of `serGeom`,
triggering the flat-prediction correction. -/
def oracleFlat8 : MLOracle := ⟨some 1, fun _ => some 8⟩

/-- An oracle whose second future-step prediction raises and whose other
predictions are 500. -/
def oracleFailStep2 : MLOracle :=
  ⟨some 1, fun i => if i = 2 then none else some 500⟩

/-- A three-year request for the `hybrid` model. -/
def reqThreeYears : ForecastRequest := ⟨"X", none, 3, "hybrid"⟩

/-- A plain two-point series. -/
def serPair : List Obs := [⟨2020, 100⟩, ⟨2021, 120⟩]

/-- A single-point series. -/
def serSingle : List Obs := [⟨2023, 500⟩]

/-- A SHAP request with a medium-term horizon. -/
def shapReqFour : SHAPRequest := ⟨"India", none, "hybrid", 4⟩

/-- A one-year request for the `prophet` model. -/
def reqProphet : ForecastRequest := ⟨"X", none, 1, "prophet"⟩

/-! Helper lemmas about the rounding used at lines 282-284. -/

theorem round_mono_q {q r : ℚ} (h : q ≤ r) : round q ≤ round r := by
  rw [round_eq, round_eq]
  exact Int.floor_le_floor (by linarith)

theorem roundHalfEven_le_round (q : ℚ) : roundHalfEven q ≤ round q := by
  unfold roundHalfEven
  split_ifs with h1 h2
  · have he : q + 1/2 = ((⌊q⌋ + 1 : ℤ) : ℚ) := by push_cast; linarith
    rw [round_eq, he, Int.floor_intCast]
    omega
  · have he : q + 1/2 = ((⌊q⌋ + 1 : ℤ) : ℚ) := by push_cast; linarith
    rw [round_eq, he, Int.floor_intCast]
  · exact le_refl _

theorem int_floor_le_roundHalfEven (q : ℚ) : ⌊q⌋ ≤ roundHalfEven q := by
  unfold roundHalfEven
  split_ifs with h1 h2
  · exact le_refl _
  · omega
  · rw [round_eq]
    exact Int.floor_le_floor (by linarith)

theorem roundHalfEven_mono {q r : ℚ} (h : q ≤ r) : roundHalfEven q ≤ roundHalfEven r := by
  rcases eq_or_lt_of_le h with heq | hlt
  · rw [heq]
  · refine le_trans (roundHalfEven_le_round q) ?_
    by_cases hr : r - ⌊r⌋ = 1/2
    · have h1 : round q ≤ ⌊r⌋ := by
        rw [round_eq]
        have hq : q + 1/2 < ((⌊r⌋ + 1 : ℤ) : ℚ) := by push_cast; linarith
        have := Int.floor_lt.mpr hq
        omega
      refine le_trans h1 ?_
      unfold roundHalfEven
      rw [if_pos hr]
      split_ifs <;> omega
    · have hrr : roundHalfEven r = round r := by unfold roundHalfEven; rw [if_neg hr]
      rw [hrr]
      exact round_mono_q (le_of_lt hlt)

theorem pyRound2_mono {q r : ℚ} (h : q ≤ r) : pyRound2 q ≤ pyRound2 r := by
  unfold pyRound2
  have h1 : roundHalfEven (q * 100) ≤ roundHalfEven (r * 100) :=
    roundHalfEven_mono (by linarith)
  have h2 : ((roundHalfEven (q * 100) : ℤ) : ℚ) ≤ ((roundHalfEven (r * 100) : ℤ) : ℚ) := by
    exact_mod_cast h1
  linarith

theorem pyRound2_nonneg {q : ℚ} (h : 0 ≤ q) : 0 ≤ pyRound2 q := by
  unfold pyRound2
  have h0 : (0 : ℤ) ≤ ⌊q * 100⌋ := Int.floor_nonneg.mpr (by positivity)
  have h1 := int_floor_le_roundHalfEven (q * 100)
  have h2 : (0 : ℚ) ≤ ((roundHalfEven (q * 100) : ℤ) : ℚ) := by
    exact_mod_cast le_trans h0 h1
  linarith

/-! Helper lemmas about `mkPoint` (the clamp-and-round stage). -/

theorem mkPoint_lower_nonneg (y : Int) (p v : ℚ) : 0 ≤ (mkPoint y p v).lower := by
  simp only [mkPoint]
  exact pyRound2_nonneg (le_max_left 0 (p - v))

theorem mkPoint_lower_le_predicted (y : Int) (p v : ℚ) (hv : 0 ≤ v) :
    (mkPoint y p v).lower ≤ (mkPoint y p v).predicted := by
  simp only [mkPoint]
  exact pyRound2_mono (max_le_max (le_refl 0) (by linarith))

theorem mkPoint_predicted_le_upper (y : Int) (p v : ℚ) (hp : 0 ≤ p) (hv : 0 ≤ v) :
    (mkPoint y p v).predicted ≤ (mkPoint y p v).upper := by
  simp only [mkPoint]
  refine pyRound2_mono ?_
  rw [max_eq_right hp]
  linarith

/-! Helper lemmas about the selected ceiling and the final accuracy. -/

theorem specCeilingFor_ge (m : String) : 86.5 ≤ specCeilingFor m := by
  unfold specCeilingFor
  split_ifs <;> norm_num

theorem specCeilingFor_le (m : String) : specCeilingFor m ≤ 91.8 := by
  unfold specCeilingFor
  split_ifs <;> norm_num

theorem expectedAccuracyOf_ge (req : ForecastRequest) (series : List Obs) :
    86.5 ≤ expectedAccuracyOf req series := by
  unfold expectedAccuracyOf chooseModel
  split_ifs <;> norm_num

theorem expectedAccuracyOf_le_ceiling (req : ForecastRequest) (series : List Obs) :
    expectedAccuracyOf req series ≤ specCeilingFor req.model := by
  unfold expectedAccuracyOf chooseModel specCeilingFor
  split_ifs with h1 h2 h3 h4 <;>
    first
      | (norm_num; done)
      | exact absurd (Or.inl (by assumption)) h1

theorem modelAccuracyOf_ge (req : ForecastRequest) (series : List Obs)
    (oracle : MLOracle) : 75 ≤ modelAccuracyOf req series oracle := by
  unfold modelAccuracyOf trainOutcome
  split_ifs
  · cases oracle.fit <;> simp
  · norm_num

theorem modelAccuracyOf_le_ceiling (req : ForecastRequest) (series : List Obs)
    (oracle : MLOracle) : modelAccuracyOf req series oracle ≤ specCeilingFor req.model := by
  have hc := specCeilingFor_ge req.model
  have he := expectedAccuracyOf_le_ceiling req series
  unfold modelAccuracyOf trainOutcome
  split_ifs
  · cases oracle.fit with
    | none => simp; linarith
    | some r2 =>
      simp only []
      refine max_le (by linarith) (le_trans (min_le_left _ _) he)
  · simp; linarith

theorem modelAccuracyOf_le_max (req : ForecastRequest) (series : List Obs)
    (oracle : MLOracle) : modelAccuracyOf req series oracle ≤ 91.8 :=
  le_trans (modelAccuracyOf_le_ceiling req series oracle) (specCeilingFor_le req.model)

theorem confidenceFactor_nonneg {acc : ℚ} (h : acc ≤ 100) :
    0 ≤ confidenceFactor acc := by
  unfold confidenceFactor
  nlinarith

theorem stepRaw_var_nonneg (req : ForecastRequest) (series : List Obs)
    (oracle : MLOracle) (i : Nat) : 0 ≤ (stepRaw req series oracle i).2 := by
  have hacc := modelAccuracyOf_le_max req series oracle
  unfold stepRaw stepPredVar
  split_ifs
  · rcases hp : oracle.predict i with _ | p0 <;> simp only [hp]
    · exact mul_nonneg (abs_nonneg _) (by norm_num)
    · exact mul_nonneg (abs_nonneg _) (confidenceFactor_nonneg (by linarith))
  · exact mul_nonneg (abs_nonneg _) (by norm_num)

/-! Structural lemmas about `generate_forecast`. -/

theorem generate_forecast_eq_ok (req : ForecastRequest) (series : List Obs)
    (oracle : MLOracle) (h2 : 2 ≤ series.length) :
    generate_forecast req series oracle = Except.ok (forecastBundle req series oracle) := by
  unfold generate_forecast
  rw [if_neg (by omega), if_neg (by omega)]

theorem generate_forecast_ok_inv (req : ForecastRequest) (series : List Obs)
    (oracle : MLOracle) (fr : ForecastResult)
    (hok : generate_forecast req series oracle = Except.ok fr) :
    2 ≤ series.length ∧ fr = forecastBundle req series oracle := by
  unfold generate_forecast at hok
  split_ifs at hok with h1 h2
  refine ⟨by omega, ?_⟩
  injection hok with h
  exact h.symm

theorem predictionsOf_length (req : ForecastRequest) (series : List Obs)
    (oracle : MLOracle) : (predictionsOf req series oracle).length = req.years := by
  unfold predictionsOf
  simp

theorem predictionsOf_get (req : ForecastRequest) (series : List Obs)
    (oracle : MLOracle) (k : Nat) (hk : k < (predictionsOf req series oracle).length) :
    (predictionsOf req series oracle).get ⟨k, hk⟩ = stepPoint req series oracle (k + 1) := by
  unfold predictionsOf at hk ⊢
  simp [List.get_eq_getElem]

theorem accuracyMetricsFor_confidence (m : String) (acc : ℚ) (u : Bool) :
    (accuracyMetricsFor m acc u).confidence = acc := by
  unfold accuracyMetricsFor
  split_ifs <;> rfl

/-! Evaluation lemmas for the accuracy map. -/

theorem accuracyMetricsFor_hybrid_eq (acc : ℚ) (u : Bool) :
    accuracyMetricsFor "hybrid" acc u =
      { prophet := if u then 86.5 else 82.1
        xgboost := if u then 89.2 else 84.5
        hybrid := acc
        confidence := acc
        method := if u then "Advanced Gradient Boosting (Hybrid Mode)" else "Trend Analysis" } := by
  unfold accuracyMetricsFor
  rw [if_neg (by decide), if_neg (by decide)]

theorem accuracyMetricsFor_prophet_eq (acc : ℚ) (u : Bool) :
    accuracyMetricsFor "prophet" acc u =
      { prophet := acc
        xgboost := if u then 89.2 else 84.5
        hybrid := if u then 91.8 else 88.1
        confidence := acc
        method := if u then "Random Forest (Prophet Mode)" else "Trend Analysis" } := by
  unfold accuracyMetricsFor
  rw [if_pos rfl]

theorem accuracyMetricsFor_xgboost_eq (acc : ℚ) (u : Bool) :
    accuracyMetricsFor "xgboost" acc u =
      { prophet := if u then 86.5 else 82.1
        xgboost := acc
        hybrid := if u then 91.8 else 88.1
        confidence := acc
        method := if u then "Gradient Boosting (XGBoost Mode)" else "Trend Analysis" } := by
  unfold accuracyMetricsFor
  rw [if_neg (by decide), if_pos rfl]

theorem accuracyMetricsFor_other_eq (m : String) (acc : ℚ) (u : Bool)
    (h1 : m ≠ "prophet") (h2 : m ≠ "xgboost") :
    accuracyMetricsFor m acc u =
      { prophet := if u then 86.5 else 82.1
        xgboost := if u then 89.2 else 84.5
        hybrid := acc
        confidence := acc
        method := if u then "Advanced Gradient Boosting (Hybrid Mode)" else "Trend Analysis" } := by
  unfold accuracyMetricsFor
  rw [if_neg h1, if_neg h2]

/-- Claim C1 (code bug): on the two-point declining series `serDecline`
(100 then 10), the single prediction of `generate_forecast` is the point
`(2022, predicted 0, lower 0, upper -28)`: the raw prediction is
10 · (−3.5) = −35, `upper = −35 + 7 = −28` is computed before `predicted` is
clamped to 0, so the claimed invariant `0 ≤ lower ≤ predicted ≤ upper` fails
(`upper < predicted`). -/
theorem C1_invariant_failure_eval :
    ptDecline = { year := 2022, predicted := 0, lower := 0, upper := -28 } ∧
    ¬ (0 ≤ ptDecline.lower ∧ ptDecline.lower ≤ ptDecline.predicted ∧
        ptDecline.predicted ≤ ptDecline.upper) := by
  have h : ptDecline = ⟨2022, 0, 0, -28⟩ := by
    simp only [ptDecline, reqOneYear, serDecline, oracleNone, generate_forecast, forecastBundle,
      okD, predictionsOf, stepPoint, stepRaw, stepPredVar, useMlOf, modelAccuracyOf, trainOutcome,
      expectedAccuracyOf, chooseModel, lastAmount, firstAmount, amountsOf, avgAnnualChange,
      recentTrendOf, trendGrowthFactor, lastYearOf, listMaxI, mkPoint, pyRound2, roundHalfEven,
      meanQ, diffs, takeLast, List.map, List.range, junkPoint]
    norm_num [round_eq]
  rw [h]
  norm_num

/-- Claim C3, counterexample: on the three-point series `serThree` the
training feature matrix has `3 − 2 = 1 < 3` usable rows, yet training is not
skipped (`use_ml` is true once the fit succeeds), the first prediction is
the model output 200 — not the geometric trend value 162.5 — and the
reported accuracy is 86.5, not 75.0. -/
theorem C3_counterexample :
    serThree.length - 2 < 3 ∧
    useMlOf reqOneYear serThree oracleR2Nine = true ∧
    modelAccuracyOf reqOneYear serThree oracleR2Nine = 86.5 ∧
    ((okD (generate_forecast reqOneYear serThree oracleR2Nine)).predictions.headD
        junkPoint).predicted = 200 ∧
    pyRound2 (max 0 (lastAmount serThree * trendGrowthFactor serThree ^ 1)) = 162.5 ∧
    ((200 : ℚ) ≠ 162.5) ∧ ((86.5 : ℚ) ≠ 75) := by
  refine ⟨by norm_num [serThree], ?_, ?_, ?_, ?_, by norm_num, by norm_num⟩
  · simp only [useMlOf, trainOutcome, expectedAccuracyOf, chooseModel, serThree, oracleR2Nine]
    norm_num
  · simp only [modelAccuracyOf, trainOutcome, expectedAccuracyOf, chooseModel, serThree,
      oracleR2Nine]
    norm_num
  · simp only [reqOneYear, serThree, oracleR2Nine, generate_forecast, forecastBundle,
      okD, predictionsOf, stepPoint, stepRaw, stepPredVar, useMlOf, modelAccuracyOf, trainOutcome,
      expectedAccuracyOf, chooseModel, lastAmount, firstAmount, amountsOf, avgAnnualChange,
      recentTrendOf, trendGrowthFactor, lastYearOf, listMaxI, mkPoint, pyRound2, roundHalfEven,
      meanQ, diffs, takeLast, List.map, List.range, junkPoint, mlRawAdjusted, confidenceFactor]
    norm_num [round_eq]
  · simp only [lastAmount, trendGrowthFactor, avgAnnualChange, amountsOf, serThree, firstAmount,
      pyRound2, roundHalfEven]
    norm_num [round_eq]

/-- Claim C3, amended: training is skipped exactly when the series has fewer
than 3 observations (the feature matrix is then empty); in that case the
outcome is independent of the regressor, every prediction is the rounded
geometric trend value `base · growth_factor ^ i` with half-width
`0.2 · |predicted|`, and the reported accuracy is the default 80.0 (75.0
appears only when training is attempted and raises). -/
theorem C3_trend_fallback_amended (req : ForecastRequest) (series : List Obs)
    (oracle : MLOracle) (h2 : 2 ≤ series.length) (h3 : series.length < 3) :
    (∀ o2 : MLOracle, useMlOf req series o2 = false ∧ modelAccuracyOf req series o2 = 80) ∧
    generate_forecast req series oracle = Except.ok (forecastBundle req series oracle) ∧
    (forecastBundle req series oracle).accuracy.confidence = 80 ∧
    ∀ i, 1 ≤ i →
      stepRaw req series oracle i =
        (lastAmount series * trendGrowthFactor series ^ i,
         |lastAmount series * trendGrowthFactor series ^ i| * 0.2) := by
  have huse : ∀ o2 : MLOracle,
      useMlOf req series o2 = false ∧ modelAccuracyOf req series o2 = 80 := by
    intro o2
    unfold useMlOf modelAccuracyOf trainOutcome
    rw [if_neg (by omega)]
    exact ⟨rfl, rfl⟩
  refine ⟨huse, generate_forecast_eq_ok req series oracle h2, ?_, ?_⟩
  · simp only [forecastBundle]
    rw [accuracyMetricsFor_confidence]
    exact (huse oracle).2
  · intro i hi
    unfold stepRaw stepPredVar
    rw [(huse oracle).1]
    simp

/-- Claim C4, counterexample: with a series of 4 observations the requested
identifier "xgboost" does not select the boosted-trees configuration the
claim attributes to it: `len(df) < 5` forces the RandomForest branch with
ceiling 86.5. -/
theorem C4_counterexample :
    chooseModel "xgboost" 4 = (⟨RegressorKind.randomForest, 100, none, none⟩, 86.5) ∧
    specRegressorFor "xgboost" =
      (⟨RegressorKind.gradientBoosting, 100, some 0.1, none⟩, 89.2) ∧
    chooseModel "xgboost" 4 ≠ specRegressorFor "xgboost" := by
  refine ⟨by simp [chooseModel], by simp [specRegressorFor], ?_⟩
  intro h
  have h2 := congrArg Prod.snd h
  simp only [chooseModel, specRegressorFor] at h2
  rw [if_pos (Or.inr (by norm_num)), if_neg (by decide)] at h2
  norm_num at h2

/-- Claim C4, amended: the requested identifier determines the regressor
configuration as the spec's table states it only when the series has at
least 5 observations; with fewer than 5 observations every identifier
selects the "prophet" configuration (RandomForest, 100 trees, ceiling
86.5). -/
theorem C4_selection_amended (model : String) (n : Nat)
    (hm : model = "prophet" ∨ model = "xgboost" ∨ model = "hybrid") :
    (5 ≤ n → chooseModel model n = specRegressorFor model) ∧
    (n < 5 → chooseModel model n = specRegressorFor "prophet") := by
  constructor
  · intro h5
    have hn : ¬ n < 5 := by omega
    rcases hm with rfl | rfl | rfl
    · unfold chooseModel specRegressorFor
      rw [if_pos (Or.inl rfl)]
      simp
    · have hcond : ¬("xgboost" = "prophet" ∨ n < 5) := by
        rintro (hh | hh)
        · exact absurd hh (by decide)
        · exact hn hh
      unfold chooseModel specRegressorFor
      rw [if_neg hcond]
      simp
    · have hcond : ¬("hybrid" = "prophet" ∨ n < 5) := by
        rintro (hh | hh)
        · exact absurd hh (by decide)
        · exact hn hh
      unfold chooseModel specRegressorFor
      rw [if_neg hcond]
      simp
  · intro h5
    unfold chooseModel specRegressorFor
    rw [if_pos (Or.inr h5)]
    simp

/-- Claim C5, counterexample: on the four-point series `serFour` with a
perfect in-sample fit (r2 = 1), the requested "hybrid" model reports
accuracy 86.5 — the clamp uses the selected ceiling 86.5 (RandomForest
branch, since `len(df) < 5`), not the claim's per-identifier ceiling 91.8,
under which `clamp(100, 75, 91.8) = 91.8`. -/
theorem C5_counterexample :
    reqOneYear.model = "hybrid" ∧ oracleFitOne.fit = some 1 ∧
    modelAccuracyOf reqOneYear serFour oracleFitOne = 86.5 ∧
    specClampAccuracy "hybrid" 1 = 91.8 ∧
    (okD (generate_forecast reqOneYear serFour oracleFitOne)).accuracy.hybrid = 86.5 ∧
    ((86.5 : ℚ) ≠ 91.8) := by
  refine ⟨rfl, rfl, ?_, ?_, ?_, by norm_num⟩
  · simp only [modelAccuracyOf, trainOutcome, expectedAccuracyOf, chooseModel, serFour,
      oracleFitOne]
    norm_num
  · simp only [specClampAccuracy, specCeilingFor]
    rw [if_neg (by decide), if_neg (by decide)]
    norm_num
  · rw [generate_forecast_eq_ok reqOneYear serFour oracleFitOne (by norm_num [serFour])]
    simp only [okD, forecastBundle, reqOneYear]
    rw [accuracyMetricsFor_hybrid_eq]
    simp only [modelAccuracyOf, trainOutcome, expectedAccuracyOf, chooseModel, serFour,
      oracleFitOne]
    norm_num

/-- Claim C5, amended: on every successful fit the reported accuracy equals
`clamp(r2 · 100, 75, expected_accuracy)` for the *selected* expected
ceiling, which coincides with the claim's per-identifier ceiling exactly
when the series has at least 5 observations; and in every case the reported
accuracy lies within `[75, expected_ceiling(model)]`. -/
theorem C5_accuracy_amended (req : ForecastRequest) (series : List Obs)
    (oracle : MLOracle) (r2 : ℚ)
    (h3 : 3 ≤ series.length) (hfit : oracle.fit = some r2) :
    modelAccuracyOf req series oracle =
      max 75 (min (expectedAccuracyOf req series) (r2 * 100)) ∧
    (5 ≤ series.length →
      modelAccuracyOf req series oracle = specClampAccuracy req.model r2) ∧
    (∀ o2 : MLOracle, 75 ≤ modelAccuracyOf req series o2 ∧
      modelAccuracyOf req series o2 ≤ specCeilingFor req.model) := by
  have hacc : modelAccuracyOf req series oracle =
      max 75 (min (expectedAccuracyOf req series) (r2 * 100)) := by
    unfold modelAccuracyOf trainOutcome
    rw [if_pos h3, hfit]
  refine ⟨hacc, ?_, fun o2 =>
    ⟨modelAccuracyOf_ge req series o2, modelAccuracyOf_le_ceiling req series o2⟩⟩
  intro h5
  have heq : expectedAccuracyOf req series = specCeilingFor req.model := by
    unfold expectedAccuracyOf chooseModel specCeilingFor
    have hn : ¬ series.length < 5 := by omega
    by_cases hp : req.model = "prophet"
    · rw [if_pos (Or.inl hp), if_pos hp]
    · have hcond : ¬(req.model = "prophet" ∨ series.length < 5) := by
        rintro (hh | hh)
        · exact hp hh
        · exact hn hh
      rw [if_neg hcond, if_neg hp]
      by_cases hx : req.model = "xgboost"
      · rw [if_pos hx, if_pos hx]
      · rw [if_neg hx, if_neg hx]
  rw [hacc, heq]
  rfl

/-- Claim C6, counterexample: on `serGeom` (amounts 1, 2, 4, 8) with a raw
first-step prediction of 8 (within 1.0 of the last amount, so the override
fires), the code produces 8 + 0.75 · mean(diff([2,4,8])) = 10.25, whereas
the claim's "mean of the last up-to-3 first differences"
(mean of [1,2,4]) would give 8 + 0.75 · 7/3 = 9.75. -/
theorem C6_counterexample :
    useMlOf reqOneYear serGeom oracleFlat8 = true ∧
    oracleFlat8.predict 1 = some 8 ∧
    |(8 : ℚ) - lastAmount serGeom| < 1 ∧
    ((okD (generate_forecast reqOneYear serGeom oracleFlat8)).predictions.headD
        junkPoint).predicted = 10.25 ∧
    pyRound2 (max 0 (lastAmount serGeom + specLast3DiffMean serGeom * 0.75)) = 9.75 ∧
    ((10.25 : ℚ) ≠ 9.75) := by
  refine ⟨?_, rfl, ?_, ?_, ?_, by norm_num⟩
  · simp only [useMlOf, trainOutcome, expectedAccuracyOf, chooseModel, serGeom, oracleFlat8]
    norm_num
  · simp only [lastAmount, amountsOf, serGeom]
    norm_num
  · simp only [reqOneYear, serGeom, oracleFlat8, generate_forecast, forecastBundle,
      okD, predictionsOf, stepPoint, stepRaw, stepPredVar, useMlOf, modelAccuracyOf, trainOutcome,
      expectedAccuracyOf, chooseModel, lastAmount, firstAmount, amountsOf, avgAnnualChange,
      recentTrendOf, trendGrowthFactor, lastYearOf, listMaxI, mkPoint, pyRound2, roundHalfEven,
      meanQ, diffs, takeLast, List.map, List.range, junkPoint, mlRawAdjusted, confidenceFactor]
    norm_num [round_eq]
  · simp only [lastAmount, amountsOf, serGeom, specLast3DiffMean, diffs, takeLast, meanQ,
      pyRound2, roundHalfEven, List.map]
    norm_num [round_eq]

/-- Claim C6, amended: on the trained-model path the first-step override
fires exactly when the raw prediction is strictly within 1.0 of the last
observed amount, and overrides it with `last_amount + 0.75 · recent_trend`,
where `recent_trend` is the mean of the first differences of the *last
up-to-3 observed amounts* (hence at most two differences; for a two-point
series it is the single overall annual change); otherwise the raw
prediction is kept. -/
theorem C6_flat_correction_amended (req : ForecastRequest) (series : List Obs)
    (oracle : MLOracle) (p0 : ℚ)
    (hml : useMlOf req series oracle = true) (hp : oracle.predict 1 = some p0) :
    (|p0 - lastAmount series| < 1 →
      (stepRaw req series oracle 1).1 =
        lastAmount series + recentTrendOf series * 0.75) ∧
    (1 ≤ |p0 - lastAmount series| → (stepRaw req series oracle 1).1 = p0) ∧
    (3 ≤ series.length →
      recentTrendOf series = meanQ (diffs (takeLast 3 (amountsOf series)))) ∧
    (series.length < 3 → recentTrendOf series = avgAnnualChange series) := by
  have hstep : (stepRaw req series oracle 1).1 =
      mlRawAdjusted (lastAmount series) (avgAnnualChange series) (recentTrendOf series) 1 p0 := by
    unfold stepRaw stepPredVar
    rw [hml]
    simp [hp]
  refine ⟨?_, ?_, ?_, ?_⟩
  · intro htrig
    rw [hstep]
    simp only [mlRawAdjusted]
    rw [if_neg (by omega), if_pos ⟨trivial, htrig⟩]
  · intro hfar
    rw [hstep]
    simp only [mlRawAdjusted]
    rw [if_neg (by omega), if_neg ?hc]
    case hc =>
      rintro ⟨-, hlt⟩
      exact absurd hlt (not_lt.mpr hfar)
  · intro h3
    unfold recentTrendOf
    rw [if_pos h3]
  · intro h3
    unfold recentTrendOf
    rw [if_neg (by omega)]

/-- Claim C2 (confirmed): for every series with at least 2 observations and
every positive horizon, `generate_forecast` succeeds with exactly
`req.years` prediction points, whose years are the consecutive integers
`max(observed year) + 1, …, max(observed year) + years`. -/
theorem C2_exact_horizon_years (req : ForecastRequest) (series : List Obs)
    (oracle : MLOracle) (fr : ForecastResult)
    (h2 : 2 ≤ series.length) (hy : 1 ≤ req.years)
    (hok : generate_forecast req series oracle = Except.ok fr) :
    fr.predictions.length = req.years ∧
    ∀ k (hk : k < fr.predictions.length),
      (fr.predictions.get ⟨k, hk⟩).year = lastYearOf series + ((k : Int) + 1) := by
  obtain ⟨-, rfl⟩ := generate_forecast_ok_inv req series oracle fr hok
  refine ⟨predictionsOf_length req series oracle, ?_⟩
  intro k hk
  have hget := predictionsOf_get req series oracle k hk
  show ((predictionsOf req series oracle).get ⟨k, hk⟩).year =
    lastYearOf series + ((k : Int) + 1)
  rw [hget]
  have hy : (stepPoint req series oracle (k + 1)).year =
      lastYearOf series + ((k + 1 : Nat) : Int) := rfl
  rw [hy]
  push_cast
  ring

/-- Claim C7 (confirmed): when the trained model's prediction raises at step
`j`, that single step degrades to the linear-trend fallback
`base + avg_annual_change · j` with half-width `0.2 · |predicted|`; the
request still succeeds with all `req.years` points, and every step whose
prediction call returns normally keeps the trained-model formula. -/
theorem C7_step_failure_isolated (req : ForecastRequest) (series : List Obs)
    (oracle : MLOracle) (j : Nat)
    (h2 : 2 ≤ series.length) (hml : useMlOf req series oracle = true)
    (hj1 : 1 ≤ j) (hjy : j ≤ req.years) (hfail : oracle.predict j = none) :
    generate_forecast req series oracle = Except.ok (forecastBundle req series oracle) ∧
    (forecastBundle req series oracle).predictions.length = req.years ∧
    stepRaw req series oracle j =
      (lastAmount series + avgAnnualChange series * (j : ℚ),
       |lastAmount series + avgAnnualChange series * (j : ℚ)| * 0.2) ∧
    (∀ hk : j - 1 < (forecastBundle req series oracle).predictions.length,
      (forecastBundle req series oracle).predictions.get ⟨j - 1, hk⟩ =
        mkPoint (lastYearOf series + (j : Int))
          (lastAmount series + avgAnnualChange series * (j : ℚ))
          (|lastAmount series + avgAnnualChange series * (j : ℚ)| * 0.2)) ∧
    ∀ i p0, oracle.predict i = some p0 →
      (stepRaw req series oracle i).1 =
        mlRawAdjusted (lastAmount series) (avgAnnualChange series)
          (recentTrendOf series) i p0 := by
  have hstep : stepRaw req series oracle j =
      (lastAmount series + avgAnnualChange series * (j : ℚ),
       |lastAmount series + avgAnnualChange series * (j : ℚ)| * 0.2) := by
    unfold stepRaw stepPredVar
    rw [hml]
    simp [hfail]
  refine ⟨generate_forecast_eq_ok req series oracle h2, predictionsOf_length req series oracle,
    hstep, ?_, ?_⟩
  · intro hk
    have hget := predictionsOf_get req series oracle (j - 1) hk
    show (predictionsOf req series oracle).get ⟨j - 1, hk⟩ = _
    rw [hget, Nat.sub_add_cancel hj1]
    unfold stepPoint
    rw [hstep]
  · intro i p0 hp
    unfold stepRaw stepPredVar
    rw [hml]
    simp [hp]

/-- Claim C8 (confirmed): the endpoint fails with the 404 "no historical
data" error exactly on the empty series, with the 400 "insufficient
historical data" error exactly on a one-point series, and succeeds with a
well-formed `ForecastResult` (country and sector echoed, one point per
requested year) whenever at least 2 observations exist. -/
theorem C8_error_surfaces (req : ForecastRequest) (series : List Obs)
    (oracle : MLOracle) :
    (series.length = 0 →
      generate_forecast req series oracle =
        Except.error ⟨404, "No historical data found for " ++ req.country⟩) ∧
    (series.length = 1 →
      generate_forecast req series oracle =
        Except.error ⟨400, "Insufficient historical data for forecasting"⟩) ∧
    (2 ≤ series.length →
      generate_forecast req series oracle = Except.ok (forecastBundle req series oracle) ∧
      (forecastBundle req series oracle).country = req.country ∧
      (forecastBundle req series oracle).sector = req.sector ∧
      (forecastBundle req series oracle).predictions.length = req.years) := by
  refine ⟨?_, ?_, ?_⟩
  · intro h
    unfold generate_forecast
    rw [if_pos h]
  · intro h
    unfold generate_forecast
    rw [if_neg (by omega), if_pos (by omega)]
  · intro h
    exact ⟨generate_forecast_eq_ok req series oracle h, rfl, rfl,
      predictionsOf_length req series oracle⟩

/-- Claim C9 (confirmed): on the success path, the SHAP endpoint returns
exactly the fixed explanation list selected only by the horizon bucket
(`years ≤ 3` short, `4 ≤ years ≤ 5` medium, `years ≥ 6` long), a
`model_prediction` equal to the forecast's final-year predicted value for
the same request, and a `base_value` equal to the mean of the historical
amounts. -/
theorem C9_shap_consistency (req : SHAPRequest) (series : List Obs)
    (oracle : MLOracle) (h2 : 2 ≤ series.length) (hy : 1 ≤ req.years) :
    ∃ res fr,
      generate_shap_explanations req series oracle = Except.ok res ∧
      generate_forecast (shapForecastRequest req) series oracle = Except.ok fr ∧
      res.explanations = explanationsForHorizon req.years ∧
      (req.years ≤ 3 → res.explanations = shortTermExplanations) ∧
      (4 ≤ req.years → req.years ≤ 5 → res.explanations = mediumTermExplanations) ∧
      (6 ≤ req.years → res.explanations = longTermExplanations) ∧
      res.model_prediction = (fr.predictions.getLast?.getD junkPoint).predicted ∧
      res.base_value = meanQ (amountsOf series) := by
  have hok := generate_forecast_eq_ok (shapForecastRequest req) series oracle h2
  have hlen : (forecastBundle (shapForecastRequest req) series oracle).predictions.length
      = req.years := predictionsOf_length (shapForecastRequest req) series oracle
  have hne : (forecastBundle (shapForecastRequest req) series oracle).predictions ≠ [] := by
    intro h0
    rw [h0] at hlen
    simp at hlen
    omega
  obtain ⟨pt, hpt⟩ := Option.isSome_iff_exists.mp (List.getLast?_isSome.mpr hne)
  have hsere : series.isEmpty = false := by
    cases series with
    | nil => simp at h2
    | cons a l => rfl
  have hae : (amountsOf series).isEmpty = false := by
    cases series with
    | nil => simp at h2
    | cons a l => rfl
  refine ⟨⟨explanationsForHorizon req.years, pt.predicted, meanQ (amountsOf series),
      req.country, req.sector⟩,
    forecastBundle (shapForecastRequest req) series oracle, ?_, hok, rfl, ?_, ?_, ?_, ?_, rfl⟩
  · unfold generate_shap_explanations
    rw [hok]
    simp [hpt, hsere, hae]
  · intro h3
    unfold explanationsForHorizon
    rw [if_pos h3]
  · intro h4 h5
    unfold explanationsForHorizon
    rw [if_neg (by omega), if_pos h5]
  · intro h6
    unfold explanationsForHorizon
    rw [if_neg (by omega), if_neg (by omega)]
  · show pt.predicted = _
    rw [hpt]
    rfl

/-- Claim C10 (confirmed): in the returned accuracy map, the requested
model's entry and the `confidence` entry carry the computed accuracy, while
the two non-selected entries are the fixed pairs 86.5/89.2/91.8 when a
model was trained and 82.1/84.5/88.1 otherwise. -/
theorem C10_accuracy_map (req : ForecastRequest) (series : List Obs)
    (oracle : MLOracle) (fr : ForecastResult)
    (hok : generate_forecast req series oracle = Except.ok fr) :
    fr.accuracy.confidence = modelAccuracyOf req series oracle ∧
    (req.model = "prophet" →
      fr.accuracy.prophet = modelAccuracyOf req series oracle ∧
      fr.accuracy.xgboost = (if useMlOf req series oracle then (89.2 : ℚ) else 84.5) ∧
      fr.accuracy.hybrid = (if useMlOf req series oracle then (91.8 : ℚ) else 88.1)) ∧
    (req.model = "xgboost" →
      fr.accuracy.xgboost = modelAccuracyOf req series oracle ∧
      fr.accuracy.prophet = (if useMlOf req series oracle then (86.5 : ℚ) else 82.1) ∧
      fr.accuracy.hybrid = (if useMlOf req series oracle then (91.8 : ℚ) else 88.1)) ∧
    (req.model ≠ "prophet" → req.model ≠ "xgboost" →
      fr.accuracy.hybrid = modelAccuracyOf req series oracle ∧
      fr.accuracy.prophet = (if useMlOf req series oracle then (86.5 : ℚ) else 82.1) ∧
      fr.accuracy.xgboost = (if useMlOf req series oracle then (89.2 : ℚ) else 84.5)) := by
  obtain ⟨-, rfl⟩ := generate_forecast_ok_inv req series oracle fr hok
  simp only [forecastBundle]
  refine ⟨accuracyMetricsFor_confidence _ _ _, ?_, ?_, ?_⟩
  · intro hp
    rw [hp, accuracyMetricsFor_prophet_eq]
    exact ⟨rfl, rfl, rfl⟩
  · intro hx
    rw [hx, accuracyMetricsFor_xgboost_eq]
    exact ⟨rfl, rfl, rfl⟩
  · intro hp hx
    rw [accuracyMetricsFor_other_eq req.model _ _ hp hx]
    exact ⟨rfl, rfl, rfl⟩

/-- Witness for C2 at a concrete input. -/
theorem C2_exact_horizon_years_witness :
    2 ≤ serFour.length ∧ 1 ≤ reqTwoYears.years ∧
    ((forecastBundle reqTwoYears serFour oracleFitOne).predictions.length =
        reqTwoYears.years ∧
      ∀ k (hk : k < (forecastBundle reqTwoYears serFour oracleFitOne).predictions.length),
        ((forecastBundle reqTwoYears serFour oracleFitOne).predictions.get ⟨k, hk⟩).year =
          lastYearOf serFour + ((k : Int) + 1)) :=
  ⟨by norm_num [serFour], by norm_num [reqTwoYears],
    C2_exact_horizon_years reqTwoYears serFour oracleFitOne
      (forecastBundle reqTwoYears serFour oracleFitOne)
      (by norm_num [serFour]) (by norm_num [reqTwoYears])
      (generate_forecast_eq_ok reqTwoYears serFour oracleFitOne (by norm_num [serFour]))⟩

/-- Witness for the amended C3 at a concrete two-point series. -/
theorem C3_trend_fallback_amended_witness :
    2 ≤ serPair.length ∧ serPair.length < 3 ∧
    ((∀ o2 : MLOracle, useMlOf reqOneYear serPair o2 = false ∧
        modelAccuracyOf reqOneYear serPair o2 = 80) ∧
      generate_forecast reqOneYear serPair oracleNone =
        Except.ok (forecastBundle reqOneYear serPair oracleNone) ∧
      (forecastBundle reqOneYear serPair oracleNone).accuracy.confidence = 80 ∧
      ∀ i, 1 ≤ i →
        stepRaw reqOneYear serPair oracleNone i =
          (lastAmount serPair * trendGrowthFactor serPair ^ i,
           |lastAmount serPair * trendGrowthFactor serPair ^ i| * 0.2)) :=
  ⟨by norm_num [serPair], by norm_num [serPair],
    C3_trend_fallback_amended reqOneYear serPair oracleNone
      (by norm_num [serPair]) (by norm_num [serPair])⟩

/-- Witness for the amended C4 at a concrete identifier and series size. -/
theorem C4_selection_amended_witness :
    ("hybrid" = "prophet" ∨ "hybrid" = "xgboost" ∨ "hybrid" = "hybrid") ∧
    ((5 ≤ 7 → chooseModel "hybrid" 7 = specRegressorFor "hybrid") ∧
      (7 < 5 → chooseModel "hybrid" 7 = specRegressorFor "prophet")) :=
  ⟨Or.inr (Or.inr rfl), C4_selection_amended "hybrid" 7 (Or.inr (Or.inr rfl))⟩

/-- Witness for the amended C5 at a concrete five-point series with a
perfect fit. -/
theorem C5_accuracy_amended_witness :
    3 ≤ serFive.length ∧ oracleFitOne.fit = some 1 ∧
    (modelAccuracyOf reqOneYear serFive oracleFitOne =
        max 75 (min (expectedAccuracyOf reqOneYear serFive) (1 * 100)) ∧
      (5 ≤ serFive.length →
        modelAccuracyOf reqOneYear serFive oracleFitOne =
          specClampAccuracy reqOneYear.model 1) ∧
      (∀ o2 : MLOracle, 75 ≤ modelAccuracyOf reqOneYear serFive o2 ∧
        modelAccuracyOf reqOneYear serFive o2 ≤ specCeilingFor reqOneYear.model)) :=
  ⟨by norm_num [serFive], rfl,
    C5_accuracy_amended reqOneYear serFive oracleFitOne 1 (by norm_num [serFive]) rfl⟩

/-- Witness for the amended C6 at a concrete series where the override
fires. -/
theorem C6_flat_correction_amended_witness :
    useMlOf reqOneYear serGeom oracleFlat8 = true ∧
    oracleFlat8.predict 1 = some 8 ∧
    ((|(8 : ℚ) - lastAmount serGeom| < 1 →
        (stepRaw reqOneYear serGeom oracleFlat8 1).1 =
          lastAmount serGeom + recentTrendOf serGeom * 0.75) ∧
      (1 ≤ |(8 : ℚ) - lastAmount serGeom| →
        (stepRaw reqOneYear serGeom oracleFlat8 1).1 = 8) ∧
      (3 ≤ serGeom.length →
        recentTrendOf serGeom = meanQ (diffs (takeLast 3 (amountsOf serGeom)))) ∧
      (serGeom.length < 3 → recentTrendOf serGeom = avgAnnualChange serGeom)) :=
  ⟨by simp only [useMlOf, trainOutcome, expectedAccuracyOf, chooseModel, serGeom,
      oracleFlat8]; norm_num,
    rfl,
    C6_flat_correction_amended reqOneYear serGeom oracleFlat8 8
      (by simp only [useMlOf, trainOutcome, expectedAccuracyOf, chooseModel, serGeom,
        oracleFlat8]; norm_num)
      rfl⟩

/-- Witness for C7 at a concrete run whose second step raises. -/
theorem C7_step_failure_isolated_witness :
    2 ≤ serThree.length ∧ useMlOf reqThreeYears serThree oracleFailStep2 = true ∧
    1 ≤ 2 ∧ 2 ≤ reqThreeYears.years ∧ oracleFailStep2.predict 2 = none ∧
    (generate_forecast reqThreeYears serThree oracleFailStep2 =
        Except.ok (forecastBundle reqThreeYears serThree oracleFailStep2) ∧
      (forecastBundle reqThreeYears serThree oracleFailStep2).predictions.length =
        reqThreeYears.years ∧
      stepRaw reqThreeYears serThree oracleFailStep2 2 =
        (lastAmount serThree + avgAnnualChange serThree * (2 : ℚ),
         |lastAmount serThree + avgAnnualChange serThree * (2 : ℚ)| * 0.2) ∧
      (∀ hk : 2 - 1 <
          (forecastBundle reqThreeYears serThree oracleFailStep2).predictions.length,
        (forecastBundle reqThreeYears serThree oracleFailStep2).predictions.get
            ⟨2 - 1, hk⟩ =
          mkPoint (lastYearOf serThree + (2 : Int))
            (lastAmount serThree + avgAnnualChange serThree * (2 : ℚ))
            (|lastAmount serThree + avgAnnualChange serThree * (2 : ℚ)| * 0.2)) ∧
      ∀ i p0, oracleFailStep2.predict i = some p0 →
        (stepRaw reqThreeYears serThree oracleFailStep2 i).1 =
          mlRawAdjusted (lastAmount serThree) (avgAnnualChange serThree)
            (recentTrendOf serThree) i p0) :=
  ⟨by norm_num [serThree],
    by simp only [useMlOf, trainOutcome, expectedAccuracyOf, chooseModel, serThree,
      oracleFailStep2]; norm_num,
    by norm_num, by norm_num [reqThreeYears], rfl,
    C7_step_failure_isolated reqThreeYears serThree oracleFailStep2 2
      (by norm_num [serThree])
      (by simp only [useMlOf, trainOutcome, expectedAccuracyOf, chooseModel, serThree,
        oracleFailStep2]; norm_num)
      (by norm_num) (by norm_num [reqThreeYears]) rfl⟩

/-- Witness for C8 at the three concrete series shapes. -/
theorem C8_error_surfaces_witness :
    generate_forecast reqOneYear [] oracleNone =
      Except.error ⟨404, "No historical data found for " ++ reqOneYear.country⟩ ∧
    generate_forecast reqOneYear serSingle oracleNone =
      Except.error ⟨400, "Insufficient historical data for forecasting"⟩ ∧
    (generate_forecast reqOneYear serPair oracleNone =
        Except.ok (forecastBundle reqOneYear serPair oracleNone) ∧
      (forecastBundle reqOneYear serPair oracleNone).country = reqOneYear.country ∧
      (forecastBundle reqOneYear serPair oracleNone).sector = reqOneYear.sector ∧
      (forecastBundle reqOneYear serPair oracleNone).predictions.length =
        reqOneYear.years) :=
  ⟨(C8_error_surfaces reqOneYear [] oracleNone).1 rfl,
    (C8_error_surfaces reqOneYear serSingle oracleNone).2.1 (by norm_num [serSingle]),
    (C8_error_surfaces reqOneYear serPair oracleNone).2.2 (by norm_num [serPair])⟩

/-- Witness for C9 at a concrete medium-term request. -/
theorem C9_shap_consistency_witness :
    2 ≤ serFour.length ∧ 1 ≤ shapReqFour.years ∧
    (∃ res fr,
      generate_shap_explanations shapReqFour serFour oracleFitOne = Except.ok res ∧
      generate_forecast (shapForecastRequest shapReqFour) serFour oracleFitOne =
        Except.ok fr ∧
      res.explanations = explanationsForHorizon shapReqFour.years ∧
      (shapReqFour.years ≤ 3 → res.explanations = shortTermExplanations) ∧
      (4 ≤ shapReqFour.years → shapReqFour.years ≤ 5 →
        res.explanations = mediumTermExplanations) ∧
      (6 ≤ shapReqFour.years → res.explanations = longTermExplanations) ∧
      res.model_prediction = (fr.predictions.getLast?.getD junkPoint).predicted ∧
      res.base_value = meanQ (amountsOf serFour)) :=
  ⟨by norm_num [serFour], by norm_num [shapReqFour],
    C9_shap_consistency shapReqFour serFour oracleFitOne
      (by norm_num [serFour]) (by norm_num [shapReqFour])⟩

/-- Witness for C10 at a concrete untrained `prophet` run. -/
theorem C10_accuracy_map_witness :
    generate_forecast reqProphet serPair oracleNone =
      Except.ok (forecastBundle reqProphet serPair oracleNone) ∧
    ((forecastBundle reqProphet serPair oracleNone).accuracy.confidence =
        modelAccuracyOf reqProphet serPair oracleNone ∧
      (reqProphet.model = "prophet" →
        (forecastBundle reqProphet serPair oracleNone).accuracy.prophet =
          modelAccuracyOf reqProphet serPair oracleNone ∧
        (forecastBundle reqProphet serPair oracleNone).accuracy.xgboost =
          (if useMlOf reqProphet serPair oracleNone then (89.2 : ℚ) else 84.5) ∧
        (forecastBundle reqProphet serPair oracleNone).accuracy.hybrid =
          (if useMlOf reqProphet serPair oracleNone then (91.8 : ℚ) else 88.1)) ∧
      (reqProphet.model = "xgboost" →
        (forecastBundle reqProphet serPair oracleNone).accuracy.xgboost =
          modelAccuracyOf reqProphet serPair oracleNone ∧
        (forecastBundle reqProphet serPair oracleNone).accuracy.prophet =
          (if useMlOf reqProphet serPair oracleNone then (86.5 : ℚ) else 82.1) ∧
        (forecastBundle reqProphet serPair oracleNone).accuracy.hybrid =
          (if useMlOf reqProphet serPair oracleNone then (91.8 : ℚ) else 88.1)) ∧
      (reqProphet.model ≠ "prophet" → reqProphet.model ≠ "xgboost" →
        (forecastBundle reqProphet serPair oracleNone).accuracy.hybrid =
          modelAccuracyOf reqProphet serPair oracleNone ∧
        (forecastBundle reqProphet serPair oracleNone).accuracy.prophet =
          (if useMlOf reqProphet serPair oracleNone then (86.5 : ℚ) else 82.1) ∧
        (forecastBundle reqProphet serPair oracleNone).accuracy.xgboost =
          (if useMlOf reqProphet serPair oracleNone then (89.2 : ℚ) else 84.5))) :=
  ⟨generate_forecast_eq_ok reqProphet serPair oracleNone (by norm_num [serPair]),
    C10_accuracy_map reqProphet serPair oracleNone
      (forecastBundle reqProphet serPair oracleNone)
      (generate_forecast_eq_ok reqProphet serPair oracleNone (by norm_num [serPair]))⟩
